import Mathlib

/-!
Verification of the chat-message normalization and synchronization subsystem
of the InsightsLM document-chat client, shallowly embedded from the
TypeScript sources (`useChatMessages` hooks and the two serverless
handlers `create-notebook` and `send-chat-message`).

Embedding conventions:
* JavaScript truthiness on optional strings (`x || d`, `if (!x)`) is made
  explicit: `none` and the empty string are falsy.
* `Map`s and JSON objects become association lists / structures with
  `Option` fields for properties that may be absent.
* The opaque platform pieces (the JSON parser used on legacy content, the
  outcome of database and network calls) are passed in as explicit values,
  so every function is a total Lean function over those outcomes.
-/

namespace EvalChatbot

/-- Truthiness of a nullable string, the way JavaScript evaluates
`if (x)`: absent and empty strings are falsy. -/
def truthy : Option String → Bool
  | none => false
  | some s => s ≠ ""

/-- JavaScript `x || d` on a nullable string field: the default is used
when the field is absent or empty. -/
def strOr (o : Option String) (d : String) : String :=
  match o with
  | none => d
  | some s => if s = "" then d else s

/-- JavaScript `x || d` on a nullable numeric field: `0` is falsy, so it is
also replaced by the default (as in `citation.chunk_index || index`). -/
def natOr (o : Option Nat) (d : Nat) : Nat :=
  match o with
  | none => d
  | some n => if n = 0 then d else n

/-- Prefix test on character lists, used to embed JS `String.includes`. -/
def charsHaveStart : List Char → List Char → Bool
  | [], _ => true
  | _ :: _, [] => false
  | a :: as, b :: bs => a == b && charsHaveStart as bs

/-- Infix test on character lists, used to embed JS `String.includes`. -/
def charsContain (pat : List Char) : List Char → Bool
  | [] => charsHaveStart pat []
  | b :: bs => charsHaveStart pat (b :: bs) || charsContain pat bs

/-- JavaScript `s.includes(pat)`: substring containment. -/
def jsIncludes (s pat : String) : Bool :=
  charsContain pat.data s.data

/-- One entry of the book lookup table fetched alongside messages
(`bookMap`: id maps to title and type). -/
structure BookInfo where
  title : String
  type : String
deriving Repr, DecidableEq

/-- Role tag of a normalized message (`'human' | 'ai'`). -/
inductive MessageRole where
  | human
  | ai
deriving Repr, DecidableEq

/-- One text segment of structured assistant content
(`{ text, citation_id? }`). -/
structure MessageSegment where
  text : String
  citation_id : Option Nat
deriving Repr, DecidableEq

/-- A resolved citation entry of structured assistant content. -/
structure Citation where
  citation_id : Nat
  source_id : String
  source_title : String
  source_type : String
  chunk_lines_from : Option Int
  chunk_lines_to : Option Int
  chunk_index : Option Nat
  excerpt : Option String
deriving Repr, DecidableEq

/-- Content of a normalized message: either a plain string or the
structured `{segments, citations}` object. -/
inductive MessageContent where
  | text (s : String)
  | structured (segments : List MessageSegment) (citations : List Citation)
deriving Repr, DecidableEq

/-- The `message` field of a normalized chat message (`{ type, content }`). -/
structure ChatMessageBody where
  type : MessageRole
  content : MessageContent
deriving Repr, DecidableEq

/-- A normalized chat message (`EnhancedChatMessage`). -/
structure EnhancedChatMessage where
  id : String
  session_id : String
  message : ChatMessageBody
deriving Repr, DecidableEq

/-- A raw citation as stored on a `chat_messages` row; every field may be
absent in historical data. -/
structure RowCitation where
  source_id : Option String
  source_title : Option String
  source_type : Option String
  chunk_lines_from : Option Int
  chunk_lines_to : Option Int
  chunk_index : Option Nat
  excerpt : Option String
deriving Repr, DecidableEq

/-- A `chat_messages` table row (one turn-pair). `assistant_response` is
nullable/empty until answered; `citations` is a nullable list. -/
structure ChatRow where
  id : String
  notebook_id : String
  user_message : String
  assistant_response : Option String
  citations : Option (List RowCitation)
  timestamp : Nat
deriving Repr, DecidableEq

/-- Embedding of the per-citation arrow function inside
`transformDbRowToChatMessages` (`item.citations.map((citation, index) =>
...)`): ids are `index + 1`, missing title/type fall back to
`'Unknown Source'` / `'book'`, and `chunk_index || index` replaces an
absent (or zero) chunk index by the position. -/
def transformRowCitation (index : Nat) (citation : RowCitation) : Citation :=
  { citation_id := index + 1
    source_id := strOr citation.source_id ""
    source_title := strOr citation.source_title "Unknown Source"
    source_type := strOr citation.source_type "book"
    chunk_lines_from := citation.chunk_lines_from
    chunk_lines_to := citation.chunk_lines_to
    chunk_index := some (natOr citation.chunk_index index)
    excerpt := citation.excerpt }

/-- Embedding of the `.map((citation, index) => ...)` call: a map carrying
the JavaScript array index. -/
def transformRowCitations (index : Nat) : List RowCitation → List Citation
  | [] => []
  | citation :: rest =>
      transformRowCitation index citation :: transformRowCitations (index + 1) rest

/-- The human message built from a row (`{id}-user`, type `human`,
content `user_message`). -/
def userMessageOfRow (item : ChatRow) : EnhancedChatMessage :=
  { id := item.id ++ "-user"
    session_id := item.notebook_id
    message := { type := .human, content := .text item.user_message } }

/-- Embedding of `transformDbRowToChatMessages` (flatMap-based normalizer):
always emits the human message; emits an assistant message only when
`assistant_response` is truthy, with structured content exactly when the
row carries a non-empty citations array. The book map parameter is kept
from the source signature (the function never reads it). -/
def transformDbRowToChatMessages (item : ChatRow)
    (_bookMap : List (String × BookInfo)) : List EnhancedChatMessage :=
  let userMessage := userMessageOfRow item
  if truthy item.assistant_response then
    let responseText := item.assistant_response.getD ""
    let messageContent : MessageContent :=
      match item.citations with
      | some cits =>
          if cits.length > 0 then
            let transformedCitations := transformRowCitations 0 cits
            let segments : List MessageSegment :=
              [{ text := responseText
                 citation_id :=
                   if transformedCitations.length > 0 then some 1 else none }]
            .structured segments transformedCitations
          else .text responseText
      | none => .text responseText
    [userMessage,
     { id := item.id ++ "-assistant"
       session_id := item.notebook_id
       message := { type := .ai, content := messageContent } }]
  else
    [userMessage]

/-- Embedding of `transformChatMessage` from `useChatMessages.tsx`: this
variant builds the human message and an assistant message unconditionally
(`item.assistant_response || 'No response yet'`) and returns both
(`[userMessage, assistantMessage] as any`). -/
def transformChatMessage (item : ChatRow)
    (_bookMap : List (String × BookInfo)) : List EnhancedChatMessage :=
  [ userMessageOfRow item,
    { id := item.id ++ "-assistant"
      session_id := item.notebook_id
      message := { type := .ai
                   content := .text (strOr item.assistant_response "No response yet") } } ]

/-- A raw citation inside the legacy n8n `output` array
(`{chunk_index, chunk_source_id, chunk_lines_from, chunk_lines_to}`). -/
structure RawAiCitation where
  chunk_index : Nat
  chunk_source_id : String
  chunk_lines_from : Int
  chunk_lines_to : Int
deriving Repr, DecidableEq

/-- One entry of the legacy `output` array (`{text, citations?}`). -/
structure OutputItem where
  text : String
  citations : Option (List RawAiCitation)
deriving Repr, DecidableEq

/-- Result of running `JSON.parse` on a legacy AI content string, as the
code inspects it: the parse throws, or succeeds without an `output` array,
or yields an `output` array of items. -/
inductive ParsedAiContent where
  | failure
  | noOutputArray
  | output (items : List OutputItem)
deriving Repr, DecidableEq

/-- Content field of a legacy `{type, content}` message object: a plain
string or an already-structured `{segments, citations}` object. -/
inductive RawContent where
  | str (s : String)
  | structured (segments : List MessageSegment) (citations : List Citation)
deriving Repr, DecidableEq

/-- Shape of the `message` field of a legacy history item: an object with
`type` and `content`, a bare string, or anything else. -/
inductive RawMessage where
  | obj (type : MessageRole) (content : RawContent)
  | str (s : String)
  | other
deriving Repr, DecidableEq

/-- A legacy history item (`{id, session_id, message}`). -/
structure HistoryItem where
  id : String
  session_id : String
  message : RawMessage
deriving Repr, DecidableEq

/-- JavaScript `messageObj.content || 'Empty message'` on a legacy content
value: only an empty string is falsy; structured objects are truthy. -/
def contentOr (c : RawContent) (d : String) : MessageContent :=
  match c with
  | .str s => if s = "" then .text d else .text s
  | .structured segs cits => .structured segs cits

/-- Test `outputItem.citations && outputItem.citations.length > 0`. -/
def outputItemHasCitations (item : OutputItem) : Bool :=
  match item.citations with
  | some cs => cs.length > 0
  | none => false

/-- Embedding of the per-citation construction inside `transformMessage`:
the shared `citationIdCounter` value tags every citation of one output
item; an unresolved `chunk_source_id` (or an empty looked-up field)
degrades to `'Unknown Source'` and type `'pdf'`. -/
def transformAiCitation (sourceMap : List (String × BookInfo))
    (counter : Nat) (citation : RawAiCitation) : Citation :=
  let sourceInfo := sourceMap.lookup citation.chunk_source_id
  { citation_id := counter
    source_id := citation.chunk_source_id
    source_title := strOr (sourceInfo.map (·.title)) "Unknown Source"
    source_type := strOr (sourceInfo.map (·.type)) "pdf"
    chunk_lines_from := some citation.chunk_lines_from
    chunk_lines_to := some citation.chunk_lines_to
    chunk_index := some citation.chunk_index
    excerpt := some ("Lines " ++ toString citation.chunk_lines_from ++ "-"
                       ++ toString citation.chunk_lines_to) }

/-- Embedding of the `parsedContent.output.forEach` loop of
`transformMessage`: each output item yields one segment (tagged with the
current counter only when it carries citations); all of an item's
citations are pushed with that same counter; the counter advances once
per item that carried at least one citation. -/
def transformOutputItems (sourceMap : List (String × BookInfo))
    (counter : Nat) : List OutputItem → List MessageSegment × List Citation
  | [] => ([], [])
  | item :: rest =>
      let hasCits := outputItemHasCitations item
      let seg : MessageSegment :=
        { text := item.text
          citation_id := if hasCits then some counter else none }
      let itemCits : List Citation :=
        if hasCits then
          (item.citations.getD []).map (transformAiCitation sourceMap counter)
        else []
      let tail := transformOutputItems sourceMap
        (if hasCits then counter + 1 else counter) rest
      (seg :: tail.1, itemCits ++ tail.2)

/-- Embedding of the legacy `transformMessage` (identical in
`useChatMessages.tsx` and the flatMap-based hook). The platform JSON
parser is passed in as `parseAiContent`; a thrown `JSON.parse` is its
`failure` result and is handled locally (the Lean function is total, so
nothing can propagate to the caller). -/
def transformMessage (parseAiContent : String → ParsedAiContent)
    (item : HistoryItem)
    (sourceMap : List (String × BookInfo)) : EnhancedChatMessage :=
  let transformedMessage : ChatMessageBody :=
    match item.message with
    | .obj mtype mcontent =>
        match mtype, mcontent with
        | .ai, .str s =>
            match parseAiContent s with
            | .output items =>
                let flat := transformOutputItems sourceMap 1 items
                { type := .ai, content := .structured flat.1 flat.2 }
            | .noOutputArray => { type := .ai, content := .text s }
            | .failure => { type := .ai, content := .text s }
        | _, _ => { type := mtype, content := contentOr mcontent "Empty message" }
    | .str s => { type := .human, content := .text s }
    | .other => { type := .human, content := .text "Unable to parse message" }
  { id := item.id
    session_id := item.session_id
    message := transformedMessage }

/-- Embedding of the realtime INSERT handler's cache update (flatMap-based
hook): collect the ids already in the cache, keep only pushed messages
whose id is new, return the old list untouched when nothing is new, and
otherwise append the new messages at the end. -/
def mergeRealtimeMessages (oldMessages newMessages : List EnhancedChatMessage) :
    List EnhancedChatMessage :=
  let existingIds := oldMessages.map (·.id)
  let newMessagesToAdd :=
    newMessages.filter (fun msg => !(existingIds.contains msg.id))
  if newMessagesToAdd.isEmpty then oldMessages
  else oldMessages ++ newMessagesToAdd

/-- The client-local query cache for chat messages: per-notebook cached
message lists (`setQueryData`) plus the set of query keys currently marked
stale by `invalidateQueries` (which triggers a refetch). -/
structure ChatCache where
  data : List (String × List EnhancedChatMessage)
  invalidated : List String
deriving Repr, DecidableEq

/-- Embedding of `queryClient.setQueryData(['chat-messages', nb], msgs)`:
replace the cached entry for the notebook. -/
def setQueryData (cache : ChatCache) (notebookId : String)
    (msgs : List EnhancedChatMessage) : ChatCache :=
  { cache with
      data := (notebookId, msgs) :: cache.data.filter (fun p => !(p.1 == notebookId)) }

/-- Embedding of `queryClient.invalidateQueries({queryKey:
['chat-messages', nb]})`: mark the key stale so an active query refetches. -/
def invalidateQueries (cache : ChatCache) (notebookId : String) : ChatCache :=
  { cache with invalidated := notebookId :: cache.invalidated }

/-- Embedding of the `onSuccess` handler of the `deleteChatHistory`
mutation: clear the cached list for the notebook, then invalidate the
query ("Clear the query data and refetch to confirm"). -/
def deleteChatHistoryOnSuccess (cache : ChatCache) (notebookId : String) : ChatCache :=
  invalidateQueries (setQueryData cache notebookId []) notebookId

/-- The persistent store's `chat_messages` table. -/
structure Store where
  chat_messages : List ChatRow
deriving Repr, DecidableEq

/-- Embedding of the delete issued by `deleteChatHistory`:
`delete().eq('notebook_id', notebookId)`. -/
def deleteChatMessages (store : Store) (notebookId : String) : Store :=
  { chat_messages :=
      store.chat_messages.filter (fun r => !(r.notebook_id == notebookId)) }

/-- Stable ascending insertion by timestamp, embedding the store's
`order('timestamp', { ascending: true })`. -/
def insertByTimestamp (r : ChatRow) : List ChatRow → List ChatRow
  | [] => [r]
  | x :: xs =>
      if r.timestamp < x.timestamp then r :: x :: xs
      else x :: insertByTimestamp r xs

/-- Sort rows by ascending timestamp (stable). -/
def orderByTimestamp : List ChatRow → List ChatRow
  | [] => []
  | x :: xs => insertByTimestamp x (orderByTimestamp xs)

/-- Embedding of the `listChatMessages` read path: select the notebook's
rows ordered by timestamp ascending, then normalize each row with
`transformDbRowToChatMessages` and flatten. -/
def listChatMessagesQuery (store : Store) (notebookId : String)
    (bookMap : List (String × BookInfo)) : List EnhancedChatMessage :=
  (orderByTimestamp
      (store.chat_messages.filter (fun r => r.notebook_id == notebookId))).flatMap
    (fun item => transformDbRowToChatMessages item bookMap)

/-- Embedding of the whole `deleteChatHistory` mutation on success: the
store delete together with the `onSuccess` cache handling. -/
def deleteChatHistory (store : Store) (cache : ChatCache)
    (notebookId : String) : Store × ChatCache :=
  (deleteChatMessages store notebookId,
   deleteChatHistoryOnSuccess cache notebookId)

/-- Embedding of the `retry` option of the notebooks query: never retry
when the error message mentions `'JWT'` or `'auth'`, otherwise retry while
fewer than 3 failures have happened. -/
def notebooksRetry (failureCount : Nat) (errorMessage : String) : Bool :=
  if jsIncludes errorMessage "JWT" || jsIncludes errorMessage "auth" then false
  else failureCount < 3

/-- Effective retry policy of the chat-messages query, which passes no
`retry` option: the query library's documented default applies, retrying a
failed read while fewer than 3 failures have happened, with no inspection
of the error. -/
def chatMessagesRetry (failureCount : Nat) (_errorMessage : String) : Bool :=
  failureCount < 3

/-- The permissive CORS headers shared by both serverless handlers. -/
def corsHeaders : List (String × String) :=
  [("Access-Control-Allow-Origin", "*"),
   ("Access-Control-Allow-Headers",
     "authorization, x-client-info, apikey, content-type")]

/-- Outcome of a database call made by a handler (`{data, error}`). -/
inductive DbResult (α : Type) where
  | ok (a : α)
  | err (message : String)
deriving Repr, DecidableEq

/-- The payload returned by the external chat backend, as the handler
reads it (`backendData.response || backendData.message || 'No response'`,
`backendData.citations || null`). -/
structure BackendPayload where
  response : Option String
  message : Option String
  citations : Option (List RowCitation)
deriving Repr, DecidableEq

/-- Outcome of the `fetch` to the external backend: an OK response with a
JSON payload, a non-OK HTTP status, or a thrown network error. -/
inductive FetchResult where
  | ok (data : BackendPayload)
  | httpError (status : Nat)
  | networkError (message : String)
deriving Repr, DecidableEq

/-- The notebook columns the send-chat-message handler selects
(`selected_books, selected_genres, user_id`). -/
structure NotebookCtx where
  selected_books : Option (List String)
  selected_genres : Option (List String)
  user_id : String
deriving Repr, DecidableEq

/-- The row the handler inserts into `chat_messages` on success. -/
structure InsertedChat where
  notebook_id : String
  user_message : String
  assistant_response : String
  citations : Option (List RowCitation)
deriving Repr, DecidableEq

/-- Body of a send-chat-message HTTP response. -/
inductive SendChatBody where
  | empty
  | success (message : InsertedChat) (response : BackendPayload)
  | error (message : String)
deriving Repr, DecidableEq

/-- An HTTP response with the web-platform default applied: a `Response`
constructed without an explicit `status` has status 200. -/
structure HttpResponse (β : Type) where
  status : Nat
  headers : List (String × String)
  body : β
deriving Repr, DecidableEq

/-- A parsed send-chat-message request (`{notebookId, message}` body). -/
structure SendChatRequest where
  method : String
  notebookId : Option String
  message : Option String
deriving Repr, DecidableEq

/-- Outcomes of the external calls the send-chat-message handler makes, in
program order: the notebook lookup, the genre-books query, the backend
fetch, and the `chat_messages` insert. -/
structure SendChatEnv where
  notebook : DbResult NotebookCtx
  genreBooks : DbResult (List String)
  backend : FetchResult
  insert : DbResult Unit
deriving Repr, DecidableEq

/-- A 500 error response with the handlers' shared headers. -/
def errorResponse (msg : String) : HttpResponse SendChatBody :=
  { status := 500
    headers := corsHeaders ++ [("Content-Type", "application/json")]
    body := .error msg }

/-- Embedding of the `send-chat-message` serverless handler over the
outcomes of its external calls, returning the HTTP response and the
resulting `chat_messages` store contents. The genre-books union is
computed as in the source (its failure is swallowed); the row is inserted
only on the all-success path. -/
def sendChatMessageHandler (req : SendChatRequest) (env : SendChatEnv)
    (store : List InsertedChat) : HttpResponse SendChatBody × List InsertedChat :=
  if req.method = "OPTIONS" then
    ({ status := 200, headers := corsHeaders, body := .empty }, store)
  else if !(truthy req.notebookId && truthy req.message) then
    (errorResponse "notebookId and message are required", store)
  else
    match env.notebook with
    | .err e => (errorResponse ("Failed to fetch notebook: " ++ e), store)
    | .ok notebook =>
        let baseBookIds := notebook.selected_books.getD []
        let allBookIds :=
          match notebook.selected_genres with
          | some genres =>
              if genres.length > 0 then
                match env.genreBooks with
                | .ok genreBookIds =>
                    (baseBookIds ++ genreBookIds).eraseDups
                | .err _ => baseBookIds
              else baseBookIds
          | none => baseBookIds
        let _ := allBookIds
        match env.backend with
        | .httpError st =>
            (errorResponse ("Backend API error: " ++ toString st), store)
        | .networkError m => (errorResponse m, store)
        | .ok backendData =>
            let row : InsertedChat :=
              { notebook_id := req.notebookId.getD ""
                user_message := req.message.getD ""
                assistant_response :=
                  strOr backendData.response
                    (strOr backendData.message "No response")
                citations := backendData.citations }
            match env.insert with
            | .err e =>
                (errorResponse ("Failed to save chat message: " ++ e), store)
            | .ok _ =>
                ({ status := 200
                   headers := corsHeaders ++ [("Content-Type", "application/json")]
                   body := .success row backendData }, store ++ [row])

/-- A parsed create-notebook request (`{name, user_id}` body). -/
structure CreateNotebookRequest where
  method : String
  name : Option String
  user_id : Option String
deriving Repr, DecidableEq

/-- The notebook row the create-notebook handler inserts. -/
structure NotebookRow where
  name : String
  user_id : String
  selected_books : List String
  selected_genres : List String
  memory_summary : String
  key_facts : List String
deriving Repr, DecidableEq

/-- Body of a create-notebook HTTP response. -/
inductive CreateNotebookBody where
  | empty
  | success (notebook : NotebookRow) (backend : Option BackendPayload)
  | error (message : String)
deriving Repr, DecidableEq

/-- Outcomes of the external calls the create-notebook handler makes: the
backend fetch and the notebooks insert. -/
structure CreateNotebookEnv where
  backend : FetchResult
  insert : DbResult Unit
deriving Repr, DecidableEq

/-- A 500 error response of the create-notebook handler. -/
def createErrorResponse (msg : String) : HttpResponse CreateNotebookBody :=
  { status := 500
    headers := corsHeaders ++ [("Content-Type", "application/json")]
    body := .error msg }

/-- Embedding of the `create-notebook` serverless handler (the lineage
variant that calls the backend first and fails the request when the
backend call fails, then inserts the notebook row). -/
def createNotebookHandler (req : CreateNotebookRequest)
    (env : CreateNotebookEnv) (store : List NotebookRow) :
    HttpResponse CreateNotebookBody × List NotebookRow :=
  if req.method = "OPTIONS" then
    ({ status := 200, headers := corsHeaders, body := .empty }, store)
  else if !(truthy req.name && truthy req.user_id) then
    (createErrorResponse "name and user_id are required", store)
  else
    match env.backend with
    | .httpError st =>
        (createErrorResponse ("Backend API error: " ++ toString st), store)
    | .networkError m => (createErrorResponse m, store)
    | .ok backendData =>
        let notebook : NotebookRow :=
          { name := req.name.getD ""
            user_id := req.user_id.getD ""
            selected_books := []
            selected_genres := []
            memory_summary := ""
            key_facts := [] }
        match env.insert with
        | .err e =>
            (createErrorResponse ("Failed to create notebook: " ++ e), store)
        | .ok _ =>
            ({ status := 200
               headers := corsHeaders ++ [("Content-Type", "application/json")]
               body := .success notebook (some backendData) }, store ++ [notebook])

/-! ## Shared lemmas -/

/-- The row-citation map preserves the length of the input list. -/
theorem transformRowCitations_length (index : Nat) (cits : List RowCitation) :
    (transformRowCitations index cits).length = cits.length := by
  induction cits generalizing index with
  | nil => rfl
  | cons c rest ih => simp [transformRowCitations, ih]

/-- The citation ids produced by the row-citation map are the consecutive
integers starting right after the starting index. -/
theorem transformRowCitations_ids (index : Nat) (cits : List RowCitation) :
    (transformRowCitations index cits).map (·.citation_id) =
      List.range' (index + 1) cits.length := by
  induction cits generalizing index with
  | nil => rfl
  | cons c rest ih =>
      simp only [transformRowCitations, transformRowCitation, List.map_cons,
        List.length_cons, List.range'_succ, ih]

/-- Default item handed to `List.getD` when indexing output arrays. -/
def defaultOutputItem : OutputItem := { text := "", citations := none }

/-- Unfolding of the flatten loop at an output item that carries
citations: one tagged segment, the item's citations pushed with the
current counter, and the counter advanced for the rest. -/
theorem transformOutputItems_cons_pos (m : List (String × BookInfo))
    (counter : Nat) (a : OutputItem) (rest : List OutputItem)
    (h : outputItemHasCitations a = true) :
    transformOutputItems m counter (a :: rest) =
      (({ text := a.text, citation_id := some counter } : MessageSegment) ::
          (transformOutputItems m (counter + 1) rest).1,
        (a.citations.getD []).map (transformAiCitation m counter) ++
          (transformOutputItems m (counter + 1) rest).2) := by
  simp [transformOutputItems, h]

/-- Unfolding of the flatten loop at an output item without citations: one
untagged segment, no citations, counter unchanged. -/
theorem transformOutputItems_cons_neg (m : List (String × BookInfo))
    (counter : Nat) (a : OutputItem) (rest : List OutputItem)
    (h : outputItemHasCitations a = false) :
    transformOutputItems m counter (a :: rest) =
      (({ text := a.text, citation_id := none } : MessageSegment) ::
          (transformOutputItems m counter rest).1,
        (transformOutputItems m counter rest).2) := by
  simp [transformOutputItems, h]

/-- Closed form of the flatten loop: there is one segment per output item,
and the citations component is, position by position, the citations of the
item at that position, all tagged with the starting counter plus the
number of earlier items that carry citations. -/
theorem transformOutputItems_closed (m : List (String × BookInfo))
    (counter : Nat) (items : List OutputItem) :
    (transformOutputItems m counter items).1.length = items.length ∧
    (transformOutputItems m counter items).2 =
      (List.range items.length).flatMap (fun i =>
        if outputItemHasCitations (items.getD i defaultOutputItem) then
          ((items.getD i defaultOutputItem).citations.getD []).map
            (transformAiCitation m
              (counter + ((items.take i).filter outputItemHasCitations).length))
        else []) := by
  induction items generalizing counter with
  | nil => simp [transformOutputItems]
  | cons a rest ih =>
      constructor
      · cases h : outputItemHasCitations a
        · rw [transformOutputItems_cons_neg m counter a rest h]
          simp [(ih counter).1]
        · rw [transformOutputItems_cons_pos m counter a rest h]
          simp [(ih (counter + 1)).1]
      · cases h : outputItemHasCitations a
        · rw [transformOutputItems_cons_neg m counter a rest h, (ih counter).2,
            List.length_cons, List.range_succ_eq_map, List.flatMap_cons,
            List.flatMap_map]
          simp only [Nat.succ_eq_add_one, List.getD_cons_zero, h,
            Bool.false_eq_true, if_false, List.nil_append, List.getD_cons_succ,
            List.take_succ_cons, List.filter_cons]
        · rw [transformOutputItems_cons_pos m counter a rest h, (ih (counter + 1)).2,
            List.length_cons, List.range_succ_eq_map, List.flatMap_cons,
            List.flatMap_map]
          refine congrArg₂ (fun x y => x ++ y) ?_ ?_
          · simp [h]
          · refine List.flatMap_congr fun i _ => ?_
            have harith :
                counter + 1 +
                    (List.filter outputItemHasCitations (List.take i rest)).length =
                  counter +
                    ((List.filter outputItemHasCitations (List.take i rest)).length + 1) := by
              omega
            simp only [Nat.succ_eq_add_one, List.getD_cons_succ,
              List.take_succ_cons, List.filter_cons, h, if_true, List.length_cons,
              harith]

/-! ## Claim theorems -/

/-- Row used to exercise the empty-response case (claim C1). -/
def c1Row : ChatRow :=
  { id := "r1", notebook_id := "n1", user_message := "Hi"
    assistant_response := none, citations := none, timestamp := 0 }

/-- C1 counterexample: the `transformChatMessage` normalizer of
`useChatMessages.tsx`, applied to a row whose `assistant_response` is
absent, produces two NormalizedMessages, the second of which is an
assistant message — not exactly one human message as the claim states. -/
theorem transformChatMessage_empty_response_two_messages :
    (transformChatMessage c1Row []).length = 2 ∧
    (transformChatMessage c1Row []).map (fun m => m.message.type) =
      [MessageRole.human, MessageRole.ai] := by
  constructor <;> rfl

/-- C1 (amended): for every ChatRow whose `assistant_response` is empty or
absent, the flatMap-based normalizer `transformDbRowToChatMessages`
produces exactly one NormalizedMessage: the human message with id
`<rowId>-user`; no assistant message is emitted. (The older
`transformChatMessage` in `useChatMessages.tsx` instead always also emits
an assistant placeholder message.) -/
theorem transformDbRow_empty_response_only_human
    (item : ChatRow) (bookMap : List (String × BookInfo))
    (h : truthy item.assistant_response = false) :
    transformDbRowToChatMessages item bookMap =
      [{ id := item.id ++ "-user"
         session_id := item.notebook_id
         message := { type := .human, content := .text item.user_message } }] := by
  simp [transformDbRowToChatMessages, userMessageOfRow, h]

/-- Concrete instance of the C1 theorem at the scenario row from the spec. -/
theorem transformDbRow_empty_response_only_human_witness :
    transformDbRowToChatMessages c1Row [] =
      [{ id := "r1" ++ "-user"
         session_id := "n1"
         message := { type := .human, content := .text "Hi" } }] :=
  transformDbRow_empty_response_only_human c1Row [] (by decide)

/-- C2: for every ChatRow with a truthy `assistant_response` and a
non-empty citations list, normalization yields the human message followed
by an assistant message whose structured content has exactly one segment
wrapping the full assistant text tagged `citation_id = 1`, and whose
citations list has the input's length with `citation_id` values being the
contiguous sequence `1, 2, ..., N` in input order. -/
theorem transformDbRow_citations_structured
    (item : ChatRow) (bookMap : List (String × BookInfo)) (cits : List RowCitation)
    (hresp : truthy item.assistant_response = true)
    (hcits : item.citations = some cits) (hne : cits ≠ []) :
    transformDbRowToChatMessages item bookMap =
      [ { id := item.id ++ "-user"
          session_id := item.notebook_id
          message := { type := .human, content := .text item.user_message } },
        { id := item.id ++ "-assistant"
          session_id := item.notebook_id
          message :=
            { type := .ai
              content := .structured
                [{ text := item.assistant_response.getD ""
                   citation_id := some 1 }]
                (transformRowCitations 0 cits) } } ] ∧
    (transformRowCitations 0 cits).length = cits.length ∧
    (transformRowCitations 0 cits).map (·.citation_id) =
      List.range' 1 cits.length := by
  have hlen : 0 < cits.length := List.length_pos.mpr hne
  refine ⟨?_, transformRowCitations_length 0 cits, transformRowCitations_ids 0 cits⟩
  simp [transformDbRowToChatMessages, userMessageOfRow, hresp, hcits,
    transformRowCitations_length, hlen]

/-- Row used to exercise the citations case (claim C2), following the
spec's scenario. -/
def c2Row : ChatRow :=
  { id := "r2", notebook_id := "n1", user_message := "Q"
    assistant_response := some "A"
    citations := some [ { source_id := some "b1", source_title := some "Book"
                          source_type := none
                          chunk_lines_from := some 1, chunk_lines_to := some 3
                          chunk_index := none, excerpt := none } ]
    timestamp := 1 }

/-- Concrete instance of the C2 theorem at the spec's scenario row. -/
theorem transformDbRow_citations_structured_witness :
    (transformRowCitations 0 (c2Row.citations.getD [])).map (·.citation_id) =
      List.range' 1 1 :=
  (transformDbRow_citations_structured c2Row [] (c2Row.citations.getD [])
    (by decide) rfl (by decide)).2.2

/-- C3: in the legacy historical encoding, when an AI message's content
string parses to an `output` array, `transformMessage` yields structured
content with exactly one segment per output item, and the citations of the
item at position `i` are all tagged with the single id
`1 + (number of earlier output items that carry at least one citation)`:
the counter advances once per item with citations, never once per
citation, so all citations of one output item share one `citation_id`. -/
theorem transformMessage_output_grouping
    (parseAiContent : String → ParsedAiContent) (item : HistoryItem)
    (sourceMap : List (String × BookInfo)) (s : String) (items : List OutputItem)
    (hmsg : item.message = RawMessage.obj .ai (.str s))
    (hparse : parseAiContent s = .output items) :
    transformMessage parseAiContent item sourceMap =
      { id := item.id
        session_id := item.session_id
        message :=
          { type := .ai
            content := .structured (transformOutputItems sourceMap 1 items).1
              (transformOutputItems sourceMap 1 items).2 } } ∧
    (transformOutputItems sourceMap 1 items).1.length = items.length ∧
    (transformOutputItems sourceMap 1 items).2 =
      (List.range items.length).flatMap (fun i =>
        if outputItemHasCitations (items.getD i defaultOutputItem) then
          ((items.getD i defaultOutputItem).citations.getD []).map
            (transformAiCitation sourceMap
              (1 + ((items.take i).filter outputItemHasCitations).length))
        else []) := by
  refine ⟨?_, (transformOutputItems_closed sourceMap 1 items).1,
    (transformOutputItems_closed sourceMap 1 items).2⟩
  simp [transformMessage, hmsg, hparse]

/-- Output array used to exercise the legacy grouping (claim C3): two
items with citations separated by one without. -/
def c3Items : List OutputItem :=
  [ { text := "t1"
      citations := some [ { chunk_index := 0, chunk_source_id := "b1"
                            chunk_lines_from := 1, chunk_lines_to := 3 },
                          { chunk_index := 1, chunk_source_id := "b1"
                            chunk_lines_from := 4, chunk_lines_to := 6 } ] },
    { text := "t2", citations := none },
    { text := "t3"
      citations := some [ { chunk_index := 2, chunk_source_id := "b2"
                            chunk_lines_from := 7, chunk_lines_to := 9 } ] } ]

/-- Parser outcome used to exercise the legacy grouping (claim C3). -/
def c3Parse : String → ParsedAiContent := fun s =>
  if s = "cited" then .output c3Items else .failure

/-- History item used to exercise the legacy grouping (claim C3). -/
def c3Item : HistoryItem :=
  { id := "m1", session_id := "n1", message := .obj .ai (.str "cited") }

/-- Concrete instance of the C3 theorem on a three-item output array. -/
theorem transformMessage_output_grouping_witness :
    (transformOutputItems [] 1 c3Items).1.length = c3Items.length :=
  (transformMessage_output_grouping c3Parse c3Item [] "cited" c3Items rfl
    (by decide)).2.1

/-- Projection of the citations out of structured content, for stating
concrete facts about normalized assistant messages. -/
def contentCitations : MessageContent → List Citation
  | .structured _ cits => cits
  | .text _ => []

/-- Output array with one citation whose source id is unresolved
(claim C4). -/
def c4Items : List OutputItem :=
  [ { text := "t"
      citations := some [ { chunk_index := 0, chunk_source_id := "missing"
                            chunk_lines_from := 1, chunk_lines_to := 2 } ] } ]

/-- Parser outcome used for the unresolved-source case (claim C4). -/
def c4Parse : String → ParsedAiContent := fun s =>
  if s = "payload" then .output c4Items else .failure

/-- History item used for the unresolved-source case (claim C4). -/
def c4Item : HistoryItem :=
  { id := "m2", session_id := "n2", message := .obj .ai (.str "payload") }

/-- C4 counterexample: in the legacy-encoding path, a citation whose
source id resolves to nothing is emitted with `source_title`
`"Unknown Source"` but `source_type` `"pdf"`, not `"book"` as the claim
states for both paths. -/
theorem legacy_unresolved_source_type_pdf :
    (contentCitations (transformMessage c4Parse c4Item []).message.content).map
        (fun c => (c.source_title, c.source_type)) = [("Unknown Source", "pdf")] ∧
    ¬ (contentCitations (transformMessage c4Parse c4Item []).message.content).map
        (fun c => c.source_type) = ["book"] := by
  constructor
  · rfl
  · decide

/-- C4 (amended): a citation with missing title/type fields in the
row-schema path is emitted with `source_title = "Unknown Source"` and
`source_type = "book"`; a citation with an unresolvable source id in the
legacy-encoding path is emitted with `source_title = "Unknown Source"`
but with `source_type` defaulting to `"pdf"`. -/
theorem citation_default_fields
    (index : Nat) (rc : RowCitation) (sourceMap : List (String × BookInfo))
    (counter : Nat) (ac : RawAiCitation)
    (hti : rc.source_title = none) (hty : rc.source_type = none)
    (hlk : sourceMap.lookup ac.chunk_source_id = none) :
    (transformRowCitation index rc).source_title = "Unknown Source" ∧
    (transformRowCitation index rc).source_type = "book" ∧
    (transformAiCitation sourceMap counter ac).source_title = "Unknown Source" ∧
    (transformAiCitation sourceMap counter ac).source_type = "pdf" := by
  simp [transformRowCitation, transformAiCitation, hti, hty, hlk, strOr]

/-- Concrete instance of the C4 theorem at an all-absent row citation and
an unresolved legacy citation. -/
theorem citation_default_fields_witness :
    (transformRowCitation 0
        { source_id := none, source_title := none, source_type := none
          chunk_lines_from := none, chunk_lines_to := none
          chunk_index := none, excerpt := none }).source_type = "book" ∧
    (transformAiCitation [] 1
        { chunk_index := 0, chunk_source_id := "nowhere"
          chunk_lines_from := 1, chunk_lines_to := 2 }).source_type = "pdf" :=
  ⟨(citation_default_fields 0 _ [] 1
      { chunk_index := 0, chunk_source_id := "nowhere"
        chunk_lines_from := 1, chunk_lines_to := 2 } rfl rfl rfl).2.1,
   (citation_default_fields 0
      { source_id := none, source_title := none, source_type := none
        chunk_lines_from := none, chunk_lines_to := none
        chunk_index := none, excerpt := none } [] 1 _ rfl rfl rfl).2.2.2⟩

/-- C5: the legacy normalizer is total and degrades instead of raising:
when the AI content string fails to parse as JSON, or parses without an
`output` array, `transformMessage` returns the content string verbatim as
plain text; and on any unrecognized message shape it returns the fallback
plain-text message `"Unable to parse message"`. -/
theorem transformMessage_fallbacks
    (parseAiContent : String → ParsedAiContent)
    (sourceMap : List (String × BookInfo))
    (item other : HistoryItem) (s : String)
    (hmsg : item.message = RawMessage.obj .ai (.str s))
    (hparse : parseAiContent s = .failure ∨ parseAiContent s = .noOutputArray)
    (hother : other.message = RawMessage.other) :
    (transformMessage parseAiContent item sourceMap).message =
      { type := .ai, content := .text s } ∧
    (transformMessage parseAiContent other sourceMap).message =
      { type := .human, content := .text "Unable to parse message" } := by
  constructor
  · rcases hparse with h | h <;> simp [transformMessage, hmsg, h]
  · simp [transformMessage, hother]

/-- History item whose content string does not parse (claim C5). -/
def c5Item : HistoryItem :=
  { id := "m3", session_id := "n3", message := .obj .ai (.str "not json") }

/-- History item with an unrecognized message shape (claim C5). -/
def c5Other : HistoryItem :=
  { id := "m4", session_id := "n3", message := .other }

/-- Concrete instance of the C5 theorem with a failing parser. -/
theorem transformMessage_fallbacks_witness :
    (transformMessage (fun _ => .failure) c5Item []).message =
      { type := .ai, content := .text "not json" } ∧
    (transformMessage (fun _ => .failure) c5Other []).message =
      { type := .human, content := .text "Unable to parse message" } :=
  transformMessage_fallbacks (fun _ => .failure) [] c5Item c5Other "not json"
    rfl (Or.inl rfl) rfl

/-- The cache merge is exactly: append the pushed messages whose id is not
yet cached, keeping the existing entries in place and in order. -/
theorem mergeRealtimeMessages_eq_append
    (oldMessages newMessages : List EnhancedChatMessage) :
    mergeRealtimeMessages oldMessages newMessages =
      oldMessages ++ newMessages.filter
        (fun msg => !((oldMessages.map (·.id)).contains msg.id)) := by
  unfold mergeRealtimeMessages
  by_cases h : (newMessages.filter
      (fun msg => !((oldMessages.map (·.id)).contains msg.id))).isEmpty
  · rw [if_pos h, List.isEmpty_iff.mp h, List.append_nil]
  · rw [if_neg h]

/-- Merging the same pushed messages a second time changes nothing: after
the first merge, every pushed id is present in the cache. -/
theorem mergeRealtimeMessages_idem
    (oldMessages newMessages : List EnhancedChatMessage) :
    mergeRealtimeMessages (mergeRealtimeMessages oldMessages newMessages)
        newMessages =
      mergeRealtimeMessages oldMessages newMessages := by
  rw [mergeRealtimeMessages_eq_append (mergeRealtimeMessages oldMessages newMessages)
      newMessages]
  have hnil : newMessages.filter (fun msg =>
      !(((mergeRealtimeMessages oldMessages newMessages).map (·.id)).contains
          msg.id)) = [] := by
    rw [List.filter_eq_nil_iff]
    intro m hm
    simp only [Bool.not_eq_true', Bool.not_eq_false]
    rw [mergeRealtimeMessages_eq_append oldMessages newMessages]
    by_cases h : ((oldMessages.map (·.id)).contains m.id) = true
    · simp only [List.map_append, List.contains, List.elem_iff] at h ⊢
      exact List.mem_append_left _ h
    · have hmem : m ∈ newMessages.filter
          (fun msg => !((oldMessages.map (·.id)).contains msg.id)) := by
        rw [List.mem_filter]
        exact ⟨hm, by simp only [Bool.not_eq_true']; exact Bool.eq_false_iff.mpr h⟩
      simp only [List.map_append, List.contains, List.elem_iff]
      exact List.mem_append_right _ (List.mem_map.mpr ⟨m, hmem, rfl⟩)
  rw [hnil, List.append_nil]

/-- C6: the push-notification cache merge is insert-once and idempotent:
merging the normalized messages of a pushed row appends exactly those
whose id is not already cached (existing entries are kept in place,
unreordered and unmodified), and applying the same merge twice yields the
same cache contents as applying it once. -/
theorem realtime_merge_insert_once_idempotent
    (oldMessages : List EnhancedChatMessage) (row : ChatRow)
    (bookMap : List (String × BookInfo)) :
    mergeRealtimeMessages oldMessages (transformDbRowToChatMessages row bookMap) =
      oldMessages ++ (transformDbRowToChatMessages row bookMap).filter
        (fun msg => !((oldMessages.map (·.id)).contains msg.id)) ∧
    mergeRealtimeMessages
        (mergeRealtimeMessages oldMessages
          (transformDbRowToChatMessages row bookMap))
        (transformDbRowToChatMessages row bookMap) =
      mergeRealtimeMessages oldMessages
        (transformDbRowToChatMessages row bookMap) :=
  ⟨mergeRealtimeMessages_eq_append oldMessages _,
   mergeRealtimeMessages_idem oldMessages _⟩

/-- Store used for the delete-history scenario (claim C7). -/
def c7Store : Store :=
  { chat_messages :=
      [ { id := "r1", notebook_id := "n1", user_message := "Hi"
          assistant_response := some "Hello", citations := none
          timestamp := 0 } ] }

/-- Cache used for the delete-history scenario (claim C7). -/
def c7Cache : ChatCache :=
  { data := [("n1", transformDbRowToChatMessages
      { id := "r1", notebook_id := "n1", user_message := "Hi"
        assistant_response := some "Hello", citations := none
        timestamp := 0 } [])]
    invalidated := [] }

/-- C7 counterexample: after a successful `deleteChatHistory("n1")` the
layer has invalidated the chat-messages query for the notebook (its
`onSuccess` calls `invalidateQueries` right after clearing the data), so
the claim that the layer "does not invalidate-and-refetch" is false. -/
theorem deleteChatHistory_invalidates :
    ((deleteChatHistory c7Store c7Cache "n1").2.invalidated.contains "n1")
      = true := by
  rfl

/-- C7 (amended): on successful `deleteChatHistory(notebookId)`, the layer
replaces the cache for that notebook with the empty sequence and
additionally invalidates the query (triggering a confirming refetch); an
immediately following `listChatMessages` read over the post-delete store
returns the empty sequence, so no stale entries are observable. -/
theorem deleteChatHistory_empty_view (store : Store) (cache : ChatCache)
    (notebookId : String) (bookMap : List (String × BookInfo)) :
    ((deleteChatHistory store cache notebookId).2).data.lookup notebookId
      = some [] ∧
    listChatMessagesQuery (deleteChatHistory store cache notebookId).1
      notebookId bookMap = [] ∧
    ((deleteChatHistory store cache notebookId).2).invalidated.contains
      notebookId = true := by
  refine ⟨?_, ?_, ?_⟩
  · simp [deleteChatHistory, deleteChatHistoryOnSuccess, invalidateQueries,
      setQueryData, List.lookup]
  · have hnil : (store.chat_messages.filter
        (fun r => !(r.notebook_id == notebookId))).filter
          (fun r => r.notebook_id == notebookId) = [] := by
      rw [List.filter_filter, List.filter_eq_nil_iff]
      intro a _
      cases hops : a.notebook_id == notebookId <;> simp [hops]
    simp [listChatMessagesQuery, deleteChatHistory, deleteChatMessages, hnil,
      orderByTimestamp]
  · simp [deleteChatHistory, deleteChatHistoryOnSuccess, invalidateQueries,
      setQueryData, List.contains]

/-- C8 counterexample: the chat-messages read, which configures no retry
policy and therefore falls back to the query library's default, does retry
a failure whose error text indicates an authentication problem, while the
notebooks read does not — so the auth fast-fail does not hold for all
reads as the claim states. -/
theorem chatMessages_read_retries_on_auth_error :
    chatMessagesRetry 0 "JWT expired" = true ∧
    jsIncludes "JWT expired" "JWT" = true ∧
    notebooksRetry 0 "JWT expired" = false := by
  refine ⟨rfl, ?_, ?_⟩ <;> decide

/-- C8 (amended): every read is retried at most 3 times; the notebooks
read additionally never retries when the error text contains `'JWT'` or
`'auth'`, while the chat-messages read, configuring no retry policy, uses
the library default of up to 3 retries regardless of the error text. -/
theorem read_retry_policies (n : Nat) (msg other : String) :
    (3 ≤ n → notebooksRetry n msg = false) ∧
    (jsIncludes msg "JWT" = true ∨ jsIncludes msg "auth" = true →
      notebooksRetry n msg = false) ∧
    (3 ≤ n → chatMessagesRetry n msg = false) ∧
    chatMessagesRetry n msg = chatMessagesRetry n other := by
  refine ⟨?_, ?_, ?_, rfl⟩
  · intro h
    unfold notebooksRetry
    split
    · rfl
    · simpa using Nat.not_lt.mpr h
  · intro h
    unfold notebooksRetry
    rcases h with h | h <;> simp [h]
  · intro h
    unfold chatMessagesRetry
    simpa using Nat.not_lt.mpr h

/-- Concrete instance of the C8 theorem: the retry cap and the auth
fast-fail of the notebooks read, and the retry cap of the chat read. -/
theorem read_retry_policies_witness :
    notebooksRetry 4 "network down" = false ∧
    notebooksRetry 0 "JWT malformed" = false ∧
    chatMessagesRetry 3 "network down" = false :=
  ⟨(read_retry_policies 4 "network down" "x").1 (by omega),
   (read_retry_policies 0 "JWT malformed" "x").2.1 (Or.inl (by decide)),
   (read_retry_policies 3 "network down" "x").2.2.1 (by omega)⟩

/-- Pre-flight request to the send-chat-message endpoint (claim C9). -/
def c9SendReq : SendChatRequest :=
  { method := "OPTIONS", notebookId := none, message := none }

/-- Pre-flight request to the create-notebook endpoint (claim C9). -/
def c9CreateReq : CreateNotebookRequest :=
  { method := "OPTIONS", name := none, user_id := none }

/-- Arbitrary external outcomes for the send endpoint (claim C9); the
pre-flight branch never consults them. -/
def c9SendEnv : SendChatEnv :=
  { notebook := .err "unused", genreBooks := .err "unused"
    backend := .networkError "unused", insert := .err "unused" }

/-- Arbitrary external outcomes for the create endpoint (claim C9). -/
def c9CreateEnv : CreateNotebookEnv :=
  { backend := .networkError "unused", insert := .err "unused" }

/-- C9 counterexample: the OPTIONS pre-flight branch of both handlers
builds `new Response(null, { headers: corsHeaders })` with no explicit
status, so the web-platform default status 200 is returned, not 204. -/
theorem preflight_status_not_204 :
    (sendChatMessageHandler c9SendReq c9SendEnv []).1.status = 200 ∧
    (createNotebookHandler c9CreateReq c9CreateEnv []).1.status = 200 ∧
    ¬ (sendChatMessageHandler c9SendReq c9SendEnv []).1.status = 204 := by
  refine ⟨rfl, rfl, ?_⟩
  decide

/-- C9 (amended): for every OPTIONS pre-flight request to either endpoint,
the handler returns status 200 (the `Response` default, no explicit
status) with the permissive CORS headers and an empty body. -/
theorem preflight_200_with_cors (reqS : SendChatRequest)
    (reqC : CreateNotebookRequest) (envS : SendChatEnv)
    (envC : CreateNotebookEnv) (storeS : List InsertedChat)
    (storeC : List NotebookRow)
    (hS : reqS.method = "OPTIONS") (hC : reqC.method = "OPTIONS") :
    (sendChatMessageHandler reqS envS storeS).1 =
      { status := 200, headers := corsHeaders, body := .empty } ∧
    (createNotebookHandler reqC envC storeC).1 =
      { status := 200, headers := corsHeaders, body := .empty } := by
  constructor
  · simp [sendChatMessageHandler, hS]
  · simp [createNotebookHandler, hC]

/-- Concrete instance of the C9 theorem at literal OPTIONS requests. -/
theorem preflight_200_with_cors_witness :
    (sendChatMessageHandler c9SendReq c9SendEnv []).1 =
      { status := 200, headers := corsHeaders, body := .empty } ∧
    (createNotebookHandler c9CreateReq c9CreateEnv []).1 =
      { status := 200, headers := corsHeaders, body := .empty } :=
  preflight_200_with_cors c9SendReq c9CreateReq c9SendEnv c9CreateEnv [] []
    rfl rfl

/-- C10: in the send-chat-message handler, when the notebook lookup fails
or the backend responds with a non-OK status, the handler returns a 500
response carrying an error payload and the `chat_messages` store is left
unchanged: the row insert happens only after a successful backend call. -/
theorem sendChat_error_no_insert (req : SendChatRequest) (env : SendChatEnv)
    (store : List InsertedChat)
    (hm : ¬ req.method = "OPTIONS")
    (hnb : truthy req.notebookId = true) (hmsg : truthy req.message = true)
    (herr : (∃ e, env.notebook = .err e) ∨ (∃ st, env.backend = .httpError st)) :
    (sendChatMessageHandler req env store).1.status = 500 ∧
    (∃ m, (sendChatMessageHandler req env store).1.body = .error m) ∧
    (sendChatMessageHandler req env store).2 = store := by
  rcases herr with ⟨e, he⟩ | ⟨st, hb⟩
  · simp [sendChatMessageHandler, hm, hnb, hmsg, he, errorResponse]
  · cases hn : env.notebook with
    | err e => simp [sendChatMessageHandler, hm, hnb, hmsg, hn, errorResponse]
    | ok nb => simp [sendChatMessageHandler, hm, hnb, hmsg, hn, hb, errorResponse]

/-- Valid chat request used to exercise the error path (claim C10). -/
def c10Req : SendChatRequest :=
  { method := "POST", notebookId := some "n1", message := some "hello" }

/-- External outcomes with a failing notebook lookup (claim C10). -/
def c10Env : SendChatEnv :=
  { notebook := .err "not found", genreBooks := .ok []
    backend := .ok { response := none, message := none, citations := none }
    insert := .ok () }

/-- Concrete instance of the C10 theorem at a failing notebook lookup. -/
theorem sendChat_error_no_insert_witness :
    (sendChatMessageHandler c10Req c10Env []).1.status = 500 ∧
    (sendChatMessageHandler c10Req c10Env []).2 = ([] : List InsertedChat) :=
  ⟨(sendChat_error_no_insert c10Req c10Env [] (by decide) (by decide) (by decide)
      (Or.inl ⟨"not found", rfl⟩)).1,
   (sendChat_error_no_insert c10Req c10Env [] (by decide) (by decide) (by decide)
      (Or.inl ⟨"not found", rfl⟩)).2.2⟩

end EvalChatbot
